import Mathlib

/-!
Shallow embedding of the GmailDrafter repository (src/main.py and
src/main_simple.py).

Pure string manipulation (template substitution, whitespace splitting,
newline-to-br replacement, URL auto-linking) is modelled directly on
`List Char` / `String`.  The Gmail API call and the IMAP append are
abstracted as an explicit `DraftApi` argument returning `Except`,
mirroring the exception that the source catches; a Python exception
escaping a function is modelled by an `Option`/`Except` result.
-/

namespace GmailDrafter

/-- Whitespace for Python `str.split()` and the regex class `\s`
(ASCII fragment; the program only feeds it ordinary text). -/
def isPySpace (c : Char) : Bool :=
  c == ' ' || c == '\t' || c == '\n' || c == '\r' || c == '\x0b' || c == '\x0c'

/-- Does the list `l` start with the pattern `pat`? -/
def startsWith : List Char → List Char → Bool
  | _, [] => true
  | [], _ :: _ => false
  | c :: cs, d :: ds => (c == d) && startsWith cs ds

/-- Does `pat` occur as a contiguous sublist of `l`? -/
def containsSub : List Char → List Char → Bool
  | [], pat => startsWith [] pat
  | c :: cs, pat => startsWith (c :: cs) pat || containsSub cs pat

/-- Python `str.split()` with no argument: split on whitespace runs and
drop empty pieces.  `acc` holds the characters of the current token in
reverse order. -/
def splitGo : List Char → List Char → List (List Char)
  | [], acc => if acc = [] then [] else [acc.reverse]
  | c :: cs, acc =>
    if isPySpace c then
      if acc = [] then splitGo cs [] else acc.reverse :: splitGo cs []
    else splitGo cs (c :: acc)

/-- Python `str.split()` on a char list. -/
def pySplit (l : List Char) : List (List Char) := splitGo l []

/-- Fuel-indexed model of Python `str.replace`: replace every
non-overlapping occurrence of `pat` by `rep`, scanning left to right. -/
def replaceFuel (pat rep : List Char) : Nat → List Char → List Char
  | 0, l => l
  | _ + 1, [] => []
  | fuel + 1, c :: cs =>
    if startsWith (c :: cs) pat then
      rep ++ replaceFuel pat rep fuel (List.drop pat.length (c :: cs))
    else
      c :: replaceFuel pat rep fuel cs

/-- Python `str.replace` on char lists.  Every pattern the program uses
is non-empty, which makes the initial fuel `l.length` sufficient. -/
def replaceL (pat rep l : List Char) : List Char := replaceFuel pat rep l.length l

/-- The `%name%` placeholder as a char list. -/
def nameTok : List Char := ['%', 'n', 'a', 'm', 'e', '%']

/-- A contact: one CSV row, i.e. a mapping from column name to value
(Python `dict`; keys are unique so first-match lookup is faithful). -/
abbrev Contact := List (String × String)

/-- Python `dict.get(key, dflt)`: the stored value when the key is
present, otherwise the default. -/
def Contact.get : Contact → String → String → String
  | [], _, dflt => dflt
  | (k, v) :: rest, key, dflt => if k = key then v else Contact.get rest key dflt

/-- The expression `contact.get('name', contact.get('Name', ''))` used
by both source files. -/
def nameOf (c : Contact) : String := c.get "name" (c.get "Name" "")

/-- The expression `contact.get('email', contact.get('Email', ''))` used
by both source files. -/
def emailOf (c : Contact) : String := c.get "email" (c.get "Email" "")

/-- The remote draft-creation call, abstracted: given recipient, subject
and (already encoded) body it either returns a draft id or fails with
the message of the raised error. -/
abbrev DraftApi := String → String → String → Except String String

/-- Outcome of `create_drafts_for_contacts` in either file: the routine
catches every exception itself, so it either reaches the final summary
line (with a success count and the total contact count) or prints the
caught error; it never lets an exception escape. -/
inductive RunResult where
  | summary (succ total : Nat)
  | caught (msg : String)
deriving DecidableEq

/-- The summary text printed at the end of a completed run
(main.py line 173 / main_simple.py line 128). -/
def summaryLine (succ total : Nat) : String :=
  "Created " ++ toString succ ++ " drafts out of " ++ toString total ++ " contacts."

/-- The subject rendering done inside both contact loops
(main.py line 167, main_simple.py line 122):
`subject_template.replace('%name%', name)` with
`name = contact.get('name', contact.get('Name', ''))`. -/
def renderedSubject (subject_template : String) (contact : Contact) : String :=
  String.mk (replaceL nameTok (nameOf contact).data subject_template.data)

namespace GmailDraftCreator

/-- main.py `process_template` (lines 79-92): `%name%` is replaced by
`full_name.split()[0] if full_name else ''`.  The indexing `[0]` raises
`IndexError` when the split of a non-empty name is empty, which is
modelled by the result `none`. -/
def process_template (template : String) (contact : Contact) : Option String :=
  let full_name := nameOf contact
  let first_name : Option (List Char) :=
    if full_name = "" then some [] else (pySplit full_name.data).head?
  first_name.map (fun fn => String.mk (replaceL nameTok fn template.data))

/-- The anchor text produced by the substitution
`<a href="\1">\1</a>` of main.py line 103. -/
def anchorOf (url : List Char) : List Char :=
  ('<' :: 'a' :: ' ' :: 'h' :: 'r' :: 'e' :: 'f' :: '=' :: '"' :: []) ++ url ++
    ('"' :: '>' :: []) ++ url ++ ('<' :: '/' :: 'a' :: '>' :: [])

/-- The literal `http://` of the regex `(https?://[^\s<>"]+)`. -/
def schemeHttp : List Char := ['h', 't', 't', 'p', ':', '/', '/']

/-- The literal `https://` of the regex `(https?://[^\s<>"]+)`. -/
def schemeHttps : List Char := ['h', 't', 't', 'p', 's', ':', '/', '/']

/-- The character class `[^\s<>"]` of the URL regex. -/
def urlChar (c : Char) : Bool :=
  !(isPySpace c || c == '<' || c == '>' || c == '"')

/-- Try to match the regex `https?://[^\s<>"]+` at the head of `l`;
on success return the matched text and the remainder. -/
def matchUrlAt (l : List Char) : Option (List Char × List Char) :=
  let scheme? : Option (List Char × List Char) :=
    if startsWith l schemeHttps then some (schemeHttps, List.drop 8 l)
    else if startsWith l schemeHttp then some (schemeHttp, List.drop 7 l)
    else none
  match scheme? with
  | none => none
  | some (scheme, rest) =>
    let body := rest.takeWhile urlChar
    if body = [] then none
    else some (scheme ++ body, rest.dropWhile urlChar)

/-- Fuel-indexed model of `re.sub(url_pattern, anchor, html)`
(main.py lines 102-103): leftmost, non-overlapping, greedy matches,
each replaced by its anchor. -/
def autolinkFuel : Nat → List Char → List Char
  | 0, l => l
  | _ + 1, [] => []
  | fuel + 1, c :: cs =>
    match matchUrlAt (c :: cs) with
    | some (url, rest) => anchorOf url ++ autolinkFuel fuel rest
    | none => c :: autolinkFuel fuel cs

/-- `re.sub` of the URL pattern over a whole char list. -/
def autolink (l : List Char) : List Char := autolinkFuel l.length l

/-- main.py `convert_to_html` (lines 94-111): newlines become
`<br>\n`, bare URLs become anchors, and the result is wrapped in the
indented f-string skeleton of lines 105-111. -/
def convert_to_html (text : String) : String :=
  let html := String.mk (replaceL ('\n' :: []) ('<' :: 'b' :: 'r' :: '>' :: '\n' :: []) text.data)
  let linked := String.mk (autolink html.data)
  "\n        <html>\n        <body>\n        " ++ linked ++
    "\n        </body>\n        </html>\n        "

/-- main.py `create_draft` (lines 113-141): the body is promoted to
HTML, the message is assembled and submitted; an `HttpError` raised by
the submit call is caught and turns into the result `False`.  MIME
assembly and base64url encoding are absorbed into the abstract
`DraftApi` call. -/
def create_draft (api : DraftApi) (to_email subject body : String) : Bool :=
  match api to_email subject (convert_to_html body) with
  | Except.ok _ => true
  | Except.error _ => false

/-- The per-contact loop of main.py `create_drafts_for_contacts`
(lines 156-171), carrying the running `success_count`.  A contact with
an empty/absent email is skipped; otherwise the body and subject are
rendered and a draft is attempted.  An `IndexError` escaping
`process_template` aborts the loop (modelled by `Except.error`). -/
def draftLoop (api : DraftApi) (template subject_template : String) :
    List Contact → Nat → Except String Nat
  | [], success_count => Except.ok success_count
  | contact :: rest, success_count =>
    let email := emailOf contact
    if email = "" then draftLoop api template subject_template rest success_count
    else
      match process_template template contact with
      | none => Except.error "IndexError: list index out of range"
      | some body =>
        if create_draft api email (renderedSubject subject_template contact) body then
          draftLoop api template subject_template rest (success_count + 1)
        else
          draftLoop api template subject_template rest success_count

/-- main.py `create_drafts_for_contacts` (lines 143-176): loads the
template and the contacts (each load may raise `FileNotFoundError`),
runs the loop, and catches any exception itself, printing it; it never
re-raises. -/
def create_drafts_for_contacts (templateLoad : Except String String)
    (contactsLoad : Except String (List Contact)) (api : DraftApi)
    (subject_template : String) : RunResult :=
  match templateLoad with
  | Except.error e => RunResult.caught e
  | Except.ok template =>
    match contactsLoad with
    | Except.error e => RunResult.caught e
    | Except.ok contacts =>
      match draftLoop api template subject_template contacts 0 with
      | Except.error e => RunResult.caught e
      | Except.ok n => RunResult.summary n contacts.length

/-- main.py `main` (lines 178-194): constructing `GmailDraftCreator`
authenticates and may raise (return code 1); afterwards
`create_drafts_for_contacts` runs and never raises, so the function
returns 0. -/
def mainExit (auth : Except String Unit) (templateLoad : Except String String)
    (contactsLoad : Except String (List Contact)) (api : DraftApi)
    (subject_template : String) : Nat :=
  match auth with
  | Except.error _ => 1
  | Except.ok _ =>
    let _run := create_drafts_for_contacts templateLoad contactsLoad api subject_template
    0

end GmailDraftCreator

namespace SimpleGmailDraftCreator

/-- main_simple.py `process_template` (lines 61-69): `%name%` is
replaced by the full `contact.get('name', contact.get('Name', ''))`. -/
def process_template (template : String) (contact : Contact) : String :=
  String.mk (replaceL nameTok (nameOf contact).data template.data)

/-- main_simple.py `create_draft_via_imap` (lines 71-93): assemble the
message and append it to the Drafts folder; any exception is caught and
turns into `False`.  MIME assembly and the IMAP session are absorbed
into the abstract `DraftApi` call. -/
def create_draft_via_imap (api : DraftApi) (to_email subject body : String) : Bool :=
  match api to_email subject body with
  | Except.ok _ => true
  | Except.error _ => false

/-- The per-contact loop of main_simple.py `create_drafts_for_contacts`
(lines 109-127).  Nothing in the body can raise, so the loop returns
the final success count directly. -/
def draftLoop (api : DraftApi) (template subject_template : String) :
    List Contact → Nat → Nat
  | [], success_count => success_count
  | contact :: rest, success_count =>
    let email := emailOf contact
    if email = "" then draftLoop api template subject_template rest success_count
    else
      let body := process_template template contact
      if create_draft_via_imap api email (renderedSubject subject_template contact) body then
        draftLoop api template subject_template rest (success_count + 1)
      else
        draftLoop api template subject_template rest success_count

/-- main_simple.py `create_drafts_for_contacts` (lines 95-132): loads
template and contacts (each may raise), runs the loop and catches any
exception itself. -/
def create_drafts_for_contacts (templateLoad : Except String String)
    (contactsLoad : Except String (List Contact)) (api : DraftApi)
    (subject_template : String) : RunResult :=
  match templateLoad with
  | Except.error e => RunResult.caught e
  | Except.ok template =>
    match contactsLoad with
    | Except.error e => RunResult.caught e
    | Except.ok contacts =>
      RunResult.summary (draftLoop api template subject_template contacts 0) contacts.length

/-- main_simple.py `main` (lines 143-172): placeholder credentials give
return code 1; a failed IMAP login raises out of the constructor and
gives 1; otherwise `create_drafts_for_contacts` runs, never raises, and
the function returns 0. -/
def mainExit (credsAreDefault : Bool) (login : Except String Unit)
    (templateLoad : Except String String) (contactsLoad : Except String (List Contact))
    (api : DraftApi) (subject_template : String) : Nat :=
  if credsAreDefault then 1
  else
    match login with
    | Except.error _ => 1
    | Except.ok _ =>
      let _run := create_drafts_for_contacts templateLoad contactsLoad api subject_template
      0

end SimpleGmailDraftCreator

/-! Helper lemmas about the string primitives. -/

theorem startsWith_nil_pat (l : List Char) : startsWith l [] = true := by
  cases l <;> rfl

theorem startsWith_le_length : ∀ {pat l : List Char}, startsWith l pat = true →
    pat.length ≤ l.length
  | [], _, _ => Nat.zero_le _
  | _ :: _, [], h => by simp [startsWith] at h
  | d :: ds, c :: cs, h => by
    rw [startsWith, Bool.and_eq_true] at h
    exact Nat.succ_le_succ (startsWith_le_length h.2)

theorem startsWith_append_self : ∀ (pat x : List Char), startsWith (pat ++ x) pat = true
  | [], x => startsWith_nil_pat x
  | c :: pat', x => by
    rw [List.cons_append, startsWith, startsWith_append_self pat' x]
    simp

/-- Is the first character (if any) rejected by `p`? -/
def firstNot (p : Char → Bool) : List Char → Bool
  | [] => true
  | c :: _ => !p c

theorem takeWhile_all_append {p : Char → Bool} :
    ∀ {xs ys : List Char}, xs.all p = true → firstNot p ys = true →
      (xs ++ ys).takeWhile p = xs ∧ (xs ++ ys).dropWhile p = ys
  | [], [], _, _ => ⟨rfl, rfl⟩
  | [], y :: ys', _, hy => by
    have hpy : p y = false := by
      rw [firstNot] at hy
      simpa using hy
    simp [List.takeWhile_cons, List.dropWhile_cons, hpy]
  | x :: xs', ys, hx, hy => by
    rw [List.all_cons, Bool.and_eq_true] at hx
    have ih := @takeWhile_all_append p xs' ys hx.2 hy
    simp [List.takeWhile_cons, List.dropWhile_cons, hx.1, ih.1, ih.2]

theorem replaceFuel_congr (pat rep : List Char) (hp : pat ≠ []) :
    ∀ (f g : Nat) (l : List Char), l.length ≤ f → l.length ≤ g →
      replaceFuel pat rep f l = replaceFuel pat rep g l := by
  intro f
  induction f with
  | zero =>
    intro g l hf _
    have hl : l = [] := List.length_eq_zero.mp (Nat.le_zero.mp hf)
    subst hl
    cases g <;> rfl
  | succ f ih =>
    intro g l hf hg
    cases l with
    | nil => cases g <;> rfl
    | cons c cs =>
      cases g with
      | zero => simp at hg
      | succ g =>
        have hpatlen : 1 ≤ pat.length := List.length_pos.mpr hp
        rw [replaceFuel, replaceFuel]
        by_cases hsw : startsWith (c :: cs) pat = true
        · rw [if_pos hsw, if_pos hsw]
          have hdrop : (List.drop pat.length (c :: cs)).length ≤ f := by
            rw [List.length_drop]
            simp only [List.length_cons] at hf ⊢
            omega
          have hdrop' : (List.drop pat.length (c :: cs)).length ≤ g := by
            rw [List.length_drop]
            simp only [List.length_cons] at hg ⊢
            omega
          rw [ih g _ hdrop hdrop']
        · rw [if_neg hsw, if_neg hsw]
          have hcs : cs.length ≤ f := by
            simp only [List.length_cons] at hf
            omega
          have hcs' : cs.length ≤ g := by
            simp only [List.length_cons] at hg
            omega
          rw [ih g cs hcs hcs']

theorem replaceL_nil (pat rep : List Char) : replaceL pat rep [] = [] := rfl

theorem replaceL_cons_pos (pat rep : List Char) (c : Char) (cs : List Char)
    (hp : pat ≠ []) (h : startsWith (c :: cs) pat = true) :
    replaceL pat rep (c :: cs) = rep ++ replaceL pat rep (List.drop pat.length (c :: cs)) := by
  have hpatlen : 1 ≤ pat.length := List.length_pos.mpr hp
  rw [replaceL, replaceL]
  simp only [List.length_cons, replaceFuel, if_pos h]
  congr 1
  apply replaceFuel_congr pat rep hp
  · rw [List.length_drop]
    simp only [List.length_cons]
    omega
  · exact Nat.le_refl _

theorem replaceL_cons_neg (pat rep : List Char) (c : Char) (cs : List Char)
    (h : startsWith (c :: cs) pat = false) :
    replaceL pat rep (c :: cs) = c :: replaceL pat rep cs := by
  rw [replaceL, replaceL]
  simp only [List.length_cons, replaceFuel, h, Bool.false_eq_true, if_false]

theorem replaceL_pos (pat rep l : List Char) (hp : pat ≠ []) (hl : l ≠ [])
    (h : startsWith l pat = true) :
    replaceL pat rep l = rep ++ replaceL pat rep (List.drop pat.length l) := by
  cases l with
  | nil => exact absurd rfl hl
  | cons c cs => exact replaceL_cons_pos pat rep c cs hp h

theorem replaceL_of_not_contains (rep : List Char) :
    ∀ {l pat : List Char}, containsSub l pat = false → replaceL pat rep l = l
  | [], pat, _ => rfl
  | c :: cs, pat, h => by
    rw [containsSub, Bool.or_eq_false_iff] at h
    rw [replaceL_cons_neg pat rep c cs h.1, replaceL_of_not_contains rep h.2]

theorem replaceL_name_through (rep : List Char) :
    ∀ (pre post : List Char), (∀ ch ∈ pre, ch ≠ '%') →
      replaceL nameTok rep (pre ++ (nameTok ++ post)) =
        pre ++ (rep ++ replaceL nameTok rep post)
  | [], post, _ => by
    rw [List.nil_append, List.nil_append]
    have hne : nameTok ≠ [] := by simp [nameTok]
    rw [replaceL_pos nameTok rep (nameTok ++ post) hne (by simp [nameTok])
      (startsWith_append_self nameTok post), List.drop_left nameTok post]
  | c :: pre', post, h => by
    have hc : (c == '%') = false := beq_eq_false_iff_ne.mpr (h c (by simp))
    have hsw : startsWith (c :: (pre' ++ (nameTok ++ post))) nameTok = false := by
      rw [nameTok, startsWith, hc, Bool.false_and]
    rw [List.cons_append, replaceL_cons_neg nameTok rep _ _ hsw,
      replaceL_name_through rep pre' post (fun ch hch => h ch (by simp [hch]))]
    rfl

theorem splitGo_all_space : ∀ {l : List Char}, (∀ ch ∈ l, isPySpace ch = true) →
    splitGo l [] = []
  | [], _ => rfl
  | c :: cs, h => by
    have hc : isPySpace c = true := h c (by simp)
    rw [splitGo, if_pos hc, if_pos rfl]
    exact splitGo_all_space (fun ch hch => h ch (by simp [hch]))

theorem splitGo_acc_ne : ∀ (l acc : List Char), acc ≠ [] → splitGo l acc ≠ []
  | [], acc, h => by
    rw [splitGo, if_neg h]
    simp
  | c :: cs, acc, h => by
    rw [splitGo]
    by_cases hc : isPySpace c = true
    · rw [if_pos hc, if_neg h]
      simp
    · rw [if_neg hc]
      exact splitGo_acc_ne cs (c :: acc) (by simp)

theorem splitGo_ne_of_nonspace : ∀ (l : List Char) (acc : List Char) (ch : Char),
    ch ∈ l → isPySpace ch = false → splitGo l acc ≠ []
  | [], _, ch, hmem, _ => absurd hmem (List.not_mem_nil ch)
  | c :: cs, acc, ch, hmem, hns => by
    rw [splitGo]
    by_cases hc : isPySpace c = true
    · have hcs : ch ∈ cs := by
        rcases List.mem_cons.mp hmem with hceq | hcs
        · rw [hceq] at hns
          rw [hns] at hc
          exact absurd hc (by simp)
        · exact hcs
      rw [if_pos hc]
      by_cases ha : acc = []
      · rw [if_pos ha]
        exact splitGo_ne_of_nonspace cs [] ch hcs hns
      · rw [if_neg ha]
        simp
    · rw [if_neg hc]
      exact splitGo_acc_ne cs (c :: acc) (by simp)

theorem pySplit_nil_of_all_space {l : List Char} (h : ∀ ch ∈ l, isPySpace ch = true) :
    pySplit l = [] := splitGo_all_space h

theorem pySplit_ne_nil {l : List Char} (ch : Char) (hmem : ch ∈ l)
    (hns : isPySpace ch = false) : pySplit l ≠ [] :=
  splitGo_ne_of_nonspace l [] ch hmem hns

theorem splitGo_no_space : ∀ (l acc : List Char), (∀ ch ∈ l, isPySpace ch = false) →
    splitGo l acc = if acc = [] ∧ l = [] then [] else [acc.reverse ++ l]
  | [], acc, _ => by
    rw [splitGo]
    by_cases ha : acc = []
    · rw [if_pos ha, if_pos ⟨ha, rfl⟩]
    · rw [if_neg ha, if_neg (fun hand => ha hand.1)]
      simp
  | c :: cs, acc, h => by
    have hc : isPySpace c = false := h c (by simp)
    rw [splitGo, if_neg (by simp [hc]),
      splitGo_no_space cs (c :: acc) (fun ch hch => h ch (by simp [hch])),
      if_neg (by simp), if_neg (by simp)]
    simp

/-- A whitespace-free non-empty name splits to the single token that is
the whole name. -/
theorem pySplit_no_space {l : List Char} (hne : l ≠ [])
    (h : ∀ ch ∈ l, isPySpace ch = false) : pySplit l = [l] := by
  rw [pySplit, splitGo_no_space l [] h, if_neg (fun hand => hne hand.2)]
  simp

theorem data_ne_nil {s : String} (h : s ≠ "") : s.data ≠ [] := by
  intro hdata
  apply h
  have : String.mk s.data = String.mk [] := by rw [hdata]
  exact this

theorem data_nil_of_eq_empty {s : String} (h : s = "") : s.data = [] := by
  rw [h]

theorem length_dropWhile_le (p : Char → Bool) : ∀ l : List Char,
    (l.dropWhile p).length ≤ l.length
  | [] => Nat.le_refl _
  | c :: cs => by
    rw [List.dropWhile_cons]
    by_cases hc : p c = true
    · rw [if_pos hc]
      exact Nat.le_succ_of_le (length_dropWhile_le p cs)
    · rw [if_neg hc]

theorem replaceL_single_char (a : Char) (rep : List Char) :
    ∀ l : List Char, replaceL [a] rep l = l.flatMap (fun c => if c == a then rep else [c])
  | [] => rfl
  | c :: cs => by
    cases hc : c == a with
    | true =>
      have hsw : startsWith (c :: cs) [a] = true := by
        simp [startsWith, startsWith_nil_pat, hc]
      rw [replaceL_cons_pos [a] rep c cs (by simp) hsw]
      have hdrop : List.drop ([a] : List Char).length (c :: cs) = cs := rfl
      rw [hdrop, replaceL_single_char a rep cs, List.flatMap_cons, if_pos hc]
    | false =>
      have hsw : startsWith (c :: cs) [a] = false := by
        rw [startsWith, hc, Bool.false_and]
      rw [replaceL_cons_neg [a] rep c cs hsw, replaceL_single_char a rep cs,
        List.flatMap_cons, if_neg (by simp [hc])]
      rfl

namespace GmailDraftCreator

theorem matchUrlAt_length {l url rest : List Char} (h : matchUrlAt l = some (url, rest)) :
    rest.length < l.length := by
  rw [matchUrlAt] at h
  by_cases h8 : startsWith l schemeHttps = true
  · have hlen : 8 ≤ l.length := @startsWith_le_length schemeHttps l h8
    simp only [h8, if_true] at h
    by_cases hb : (List.drop 8 l).takeWhile urlChar = []
    · simp [hb] at h
    · simp only [hb, if_neg, if_false] at h
      have hr : rest = (List.drop 8 l).dropWhile urlChar := by
        cases h
        rfl
      rw [hr]
      calc ((List.drop 8 l).dropWhile urlChar).length
          ≤ (List.drop 8 l).length := length_dropWhile_le urlChar _
        _ = l.length - 8 := by rw [List.length_drop]
        _ < l.length := by omega
  · by_cases h7 : startsWith l schemeHttp = true
    · have hlen : 7 ≤ l.length := @startsWith_le_length schemeHttp l h7
      rw [if_neg h8, if_pos h7] at h
      simp only at h
      by_cases hb : (List.drop 7 l).takeWhile urlChar = []
      · simp [hb] at h
      · simp only [hb, if_neg, if_false] at h
        have hr : rest = (List.drop 7 l).dropWhile urlChar := by
          cases h
          rfl
        rw [hr]
        calc ((List.drop 7 l).dropWhile urlChar).length
            ≤ (List.drop 7 l).length := length_dropWhile_le urlChar _
          _ = l.length - 7 := by rw [List.length_drop]
          _ < l.length := by omega
    · rw [if_neg h8, if_neg h7] at h
      simp at h

theorem autolinkFuel_congr : ∀ (f g : Nat) (l : List Char), l.length ≤ f → l.length ≤ g →
    autolinkFuel f l = autolinkFuel g l := by
  intro f
  induction f with
  | zero =>
    intro g l hf _
    have hl : l = [] := List.length_eq_zero.mp (Nat.le_zero.mp hf)
    subst hl
    cases g <;> rfl
  | succ f ih =>
    intro g l hf hg
    cases l with
    | nil => cases g <;> rfl
    | cons c cs =>
      cases g with
      | zero => simp at hg
      | succ g =>
        rw [autolinkFuel, autolinkFuel]
        cases hm : matchUrlAt (c :: cs) with
        | none =>
          simp only
          have hcs : cs.length ≤ f := by
            simp only [List.length_cons] at hf
            omega
          have hcs' : cs.length ≤ g := by
            simp only [List.length_cons] at hg
            omega
          rw [ih g cs hcs hcs']
        | some p =>
          obtain ⟨url, rest⟩ := p
          simp only
          have hrest := matchUrlAt_length hm
          have hr : rest.length ≤ f := by
            simp only [List.length_cons] at hf hrest
            omega
          have hr' : rest.length ≤ g := by
            simp only [List.length_cons] at hg hrest
            omega
          rw [ih g rest hr hr']

theorem autolink_nil : autolink [] = [] := rfl

theorem autolink_some {l url rest : List Char} (h : matchUrlAt l = some (url, rest)) :
    autolink l = anchorOf url ++ autolink rest := by
  cases l with
  | nil =>
    have : matchUrlAt ([] : List Char) = none := rfl
    rw [this] at h
    cases h
  | cons c cs =>
    have hrest := matchUrlAt_length h
    rw [autolink, List.length_cons, autolinkFuel, h]
    show anchorOf url ++ autolinkFuel cs.length rest = anchorOf url ++ autolink rest
    rw [autolink]
    congr 1
    apply autolinkFuel_congr
    · simp only [List.length_cons] at hrest
      omega
    · exact Nat.le_refl _

theorem autolink_none {c : Char} {cs : List Char} (h : matchUrlAt (c :: cs) = none) :
    autolink (c :: cs) = c :: autolink cs := by
  rw [autolink, List.length_cons, autolinkFuel, h, autolink]

theorem matchUrlAt_cons_not_h {c : Char} (l : List Char) (h : (c == 'h') = false) :
    matchUrlAt (c :: l) = none := by
  have h1 : startsWith (c :: l) schemeHttps = false := by
    rw [schemeHttps, startsWith, h, Bool.false_and]
  have h2 : startsWith (c :: l) schemeHttp = false := by
    rw [schemeHttp, startsWith, h, Bool.false_and]
  rw [matchUrlAt]
  simp [h1, h2]

theorem matchUrlAt_scheme {scheme body rest : List Char}
    (hs : scheme = schemeHttp ∨ scheme = schemeHttps)
    (hb : body ≠ []) (hall : body.all urlChar = true)
    (hrest : firstNot urlChar rest = true) :
    matchUrlAt (scheme ++ (body ++ rest)) = some (scheme ++ body, rest) := by
  have htd := @takeWhile_all_append urlChar body rest hall hrest
  rcases hs with hs | hs <;> subst hs
  · have h1 : startsWith (schemeHttp ++ (body ++ rest)) schemeHttps = false := rfl
    have h2 : startsWith (schemeHttp ++ (body ++ rest)) schemeHttp = true :=
      startsWith_append_self schemeHttp (body ++ rest)
    have h3 : List.drop 7 (schemeHttp ++ (body ++ rest)) = body ++ rest :=
      List.drop_left schemeHttp (body ++ rest)
    rw [matchUrlAt]
    simp only [h1, Bool.false_eq_true, if_false, h2, if_true, h3, htd.1, htd.2, if_neg hb]
  · have h2 : startsWith (schemeHttps ++ (body ++ rest)) schemeHttps = true :=
      startsWith_append_self schemeHttps (body ++ rest)
    have h3 : List.drop 8 (schemeHttps ++ (body ++ rest)) = body ++ rest :=
      List.drop_left schemeHttps (body ++ rest)
    rw [matchUrlAt]
    simp only [h2, if_true, h3, htd.1, htd.2, if_neg hb]

theorem autolink_through : ∀ (pre : List Char) {scheme body rest : List Char},
    (∀ ch ∈ pre, ch ≠ 'h') →
    (scheme = schemeHttp ∨ scheme = schemeHttps) →
    body ≠ [] → body.all urlChar = true → firstNot urlChar rest = true →
    autolink (pre ++ (scheme ++ (body ++ rest))) =
      pre ++ (anchorOf (scheme ++ body) ++ autolink rest)
  | [], scheme, body, rest, _, hs, hb, hall, hrest => by
    rw [List.nil_append, List.nil_append]
    exact autolink_some (matchUrlAt_scheme hs hb hall hrest)
  | c :: pre', scheme, body, rest, h, hs, hb, hall, hrest => by
    have hc : (c == 'h') = false := beq_eq_false_iff_ne.mpr (h c (by simp))
    rw [List.cons_append, autolink_none (matchUrlAt_cons_not_h _ hc),
      autolink_through pre' (fun ch hch => h ch (by simp [hch])) hs hb hall hrest]
    rfl

/-- Did the loop's draft attempt for this contact succeed?  `false` both
for a skipped contact (no email) and for a failed create call. -/
def attemptOk (api : DraftApi) (template subject_template : String) (c : Contact) : Bool :=
  !(emailOf c == "") &&
    match process_template template c with
    | some body => create_draft api (emailOf c) (renderedSubject subject_template c) body
    | none => false

theorem draftLoop_skip {contact : Contact} (api : DraftApi) (template st : String)
    (rest : List Contact) (acc : Nat) (he : emailOf contact = "") :
    draftLoop api template st (contact :: rest) acc = draftLoop api template st rest acc := by
  simp only [draftLoop]
  rw [if_pos he]

theorem draftLoop_step {contact : Contact} {body : String} (api : DraftApi)
    (template st : String) (rest : List Contact) (acc : Nat)
    (he : emailOf contact ≠ "") (hb : process_template template contact = some body) :
    draftLoop api template st (contact :: rest) acc =
      if create_draft api (emailOf contact) (renderedSubject st contact) body then
        draftLoop api template st rest (acc + 1)
      else draftLoop api template st rest acc := by
  simp only [draftLoop]
  rw [if_neg he, hb]

theorem draftLoop_abort {contact : Contact} (api : DraftApi) (template st : String)
    (rest : List Contact) (acc : Nat)
    (he : emailOf contact ≠ "") (hb : process_template template contact = none) :
    draftLoop api template st (contact :: rest) acc =
      Except.error "IndexError: list index out of range" := by
  simp only [draftLoop]
  rw [if_neg he, hb]

theorem draftLoop_count (api : DraftApi) (template st : String) :
    ∀ (contacts : List Contact) (acc : Nat),
      (∀ c ∈ contacts, emailOf c = "" ∨ (process_template template c).isSome = true) →
      draftLoop api template st contacts acc =
        Except.ok (acc + contacts.countP (attemptOk api template st))
  | [], acc, _ => by
    rw [draftLoop, List.countP_nil, Nat.add_zero]
  | contact :: rest, acc, h => by
    have hrest : ∀ c ∈ rest, emailOf c = "" ∨ (process_template template c).isSome = true :=
      fun c hc => h c (List.mem_cons_of_mem contact hc)
    rw [List.countP_cons]
    by_cases he : emailOf contact = ""
    · have hok : attemptOk api template st contact = false := by
        rw [attemptOk]
        simp [he]
      rw [draftLoop_skip api template st rest acc he,
        draftLoop_count api template st rest acc hrest, hok]
      simp
    · have he2 : (emailOf contact == "") = false := beq_eq_false_iff_ne.mpr he
      rcases h contact (List.mem_cons_self contact rest) with he' | hsome
      · exact absurd he' he
      · obtain ⟨body, hbody⟩ := Option.isSome_iff_exists.mp hsome
        have hok : attemptOk api template st contact =
            create_draft api (emailOf contact) (renderedSubject st contact) body := by
          rw [attemptOk, hbody, he2]
          simp
        rw [draftLoop_step api template st rest acc he hbody, hok]
        by_cases hcd : create_draft api (emailOf contact) (renderedSubject st contact) body = true
        · rw [if_pos hcd, if_pos hcd, draftLoop_count api template st rest (acc + 1) hrest]
          simp only [Except.ok.injEq]
          omega
        · rw [if_neg hcd, if_neg hcd, draftLoop_count api template st rest acc hrest]
          simp only [Except.ok.injEq]
          omega

end GmailDraftCreator

namespace SimpleGmailDraftCreator

/-- Did the simple variant's draft attempt for this contact succeed? -/
def attemptOkSimple (api : DraftApi) (template subject_template : String) (c : Contact) : Bool :=
  !(emailOf c == "") &&
    create_draft_via_imap api (emailOf c) (renderedSubject subject_template c)
      (process_template template c)

theorem draftLoop_skip_simple {contact : Contact} (api : DraftApi) (template st : String)
    (rest : List Contact) (acc : Nat) (he : emailOf contact = "") :
    draftLoop api template st (contact :: rest) acc = draftLoop api template st rest acc := by
  simp only [draftLoop]
  rw [if_pos he]

theorem draftLoop_count_simple (api : DraftApi) (template st : String) :
    ∀ (contacts : List Contact) (acc : Nat),
      draftLoop api template st contacts acc =
        acc + contacts.countP (attemptOkSimple api template st)
  | [], acc => by
    rw [draftLoop, List.countP_nil, Nat.add_zero]
  | contact :: rest, acc => by
    rw [List.countP_cons]
    by_cases he : emailOf contact = ""
    · have hok : attemptOkSimple api template st contact = false := by
        rw [attemptOkSimple]
        simp [he]
      rw [draftLoop_skip_simple api template st rest acc he,
        draftLoop_count_simple api template st rest acc, hok]
      simp
    · have he2 : (emailOf contact == "") = false := beq_eq_false_iff_ne.mpr he
      have hstep : draftLoop api template st (contact :: rest) acc =
          if create_draft_via_imap api (emailOf contact) (renderedSubject st contact)
              (process_template template contact) then
            draftLoop api template st rest (acc + 1)
          else draftLoop api template st rest acc := by
        simp only [draftLoop]
        rw [if_neg he]
      have hok : attemptOkSimple api template st contact =
          create_draft_via_imap api (emailOf contact) (renderedSubject st contact)
            (process_template template contact) := by
        rw [attemptOkSimple, he2]
        simp
      rw [hstep, hok]
      by_cases hcd : create_draft_via_imap api (emailOf contact) (renderedSubject st contact)
          (process_template template contact) = true
      · rw [if_pos hcd, if_pos hcd, draftLoop_count_simple api template st rest (acc + 1)]
        omega
      · rw [if_neg hcd, if_neg hcd, draftLoop_count_simple api template st rest acc]
        omega

end SimpleGmailDraftCreator

/-! Claim theorems. -/

/-- Claim C7: for every contact whose name field is the empty string or
absent under both the name and Name keys (so the looked-up name is the
empty string), both variants substitute the empty string for the
placeholder and neither raises: main.py returns `some` of the rendered
template and main_simple.py returns it directly. -/
theorem spec_c7_empty_name (template : String) (contact : Contact)
    (h : nameOf contact = "") :
    GmailDraftCreator.process_template template contact =
        some (String.mk (replaceL nameTok [] template.data)) ∧
      SimpleGmailDraftCreator.process_template template contact =
        String.mk (replaceL nameTok [] template.data) := by
  constructor
  · simp [GmailDraftCreator.process_template, h]
  · rw [SimpleGmailDraftCreator.process_template, data_nil_of_eq_empty h]

/-- Witness for C7: a contact with only an email column. -/
theorem spec_c7_empty_name_witness :
    GmailDraftCreator.process_template "Hi %name%!" [("email", "a@b.c")] = some "Hi !" ∧
      SimpleGmailDraftCreator.process_template "Hi %name%!" [("email", "a@b.c")] = "Hi !" := by
  have h := spec_c7_empty_name "Hi %name%!" [("email", "a@b.c")] (by decide)
  exact ⟨h.1.trans (by decide), h.2.trans (by decide)⟩

/-- Claim C10: main.py's renderer is total exactly when the looked-up
name is empty or has a non-whitespace character.  A non-empty name made
only of whitespace splits to an empty list, so the `[0]` access in
process_template raises (modelled by `none`); otherwise rendering
returns a value. -/
theorem spec_c10_whitespace_name_crash (template : String) (contact : Contact) :
    (nameOf contact ≠ "" → (∀ ch ∈ (nameOf contact).data, isPySpace ch = true) →
      GmailDraftCreator.process_template template contact = none) ∧
    ((nameOf contact = "" ∨ ∃ ch ∈ (nameOf contact).data, isPySpace ch = false) →
      (GmailDraftCreator.process_template template contact).isSome = true) := by
  constructor
  · intro hne hall
    simp [GmailDraftCreator.process_template, if_neg hne, pySplit_nil_of_all_space hall]
  · intro hcase
    rcases hcase with he | ⟨ch, hmem, hns⟩
    · simp [GmailDraftCreator.process_template, he]
    · by_cases he : nameOf contact = ""
      · simp [GmailDraftCreator.process_template, he]
      · have hnn := pySplit_ne_nil ch hmem hns
        cases hsp : pySplit (nameOf contact).data with
        | nil => exact absurd hsp hnn
        | cons t ts =>
          simp [GmailDraftCreator.process_template, if_neg he, hsp]

/-- Witness for C10: the single-space name crashes, the name Jane and
the missing name do not. -/
theorem spec_c10_whitespace_name_crash_witness :
    GmailDraftCreator.process_template "Hi %name%" [("name", " ")] = none ∧
      (GmailDraftCreator.process_template "Hi %name%" [("name", "Jane")]).isSome = true := by
  constructor
  · exact (spec_c10_whitespace_name_crash "Hi %name%" [("name", " ")]).1
      (by decide) (by decide)
  · exact (spec_c10_whitespace_name_crash "Hi %name%" [("name", "Jane")]).2
      (Or.inr ⟨'J', by decide, by decide⟩)

/-- Counterexample to claim C2 as stated: the single-space name is a
non-empty name, yet it has no first whitespace-delimited token, and
main.py's renderer raises on it instead of substituting anything. -/
theorem spec_c2_first_token_counterexample :
    nameOf [("name", " ")] ≠ "" ∧
      pySplit (nameOf [("name", " ")]).data = [] ∧
      GmailDraftCreator.process_template "Hi %name%" [("name", " ")] = none :=
  ⟨by decide, by decide, by decide⟩

/-- Claim C2 (amended): in main.py, for every contact whose name
whitespace-splits to at least one token, process_template replaces
every occurrence of %name% by the first token; the second conjunct
spells out that each occurrence is replaced and all surrounding text is
preserved.  Names that are non-empty but all-whitespace instead raise
(claim C10). -/
theorem spec_c2_first_token (template : String) (contact : Contact)
    (fn : List Char) (toks : List (List Char))
    (hsp : pySplit (nameOf contact).data = fn :: toks) :
    GmailDraftCreator.process_template template contact =
        some (String.mk (replaceL nameTok fn template.data)) ∧
      ∀ (pre post : List Char), (∀ ch ∈ pre, ch ≠ '%') →
        replaceL nameTok fn (pre ++ (nameTok ++ post)) =
          pre ++ (fn ++ replaceL nameTok fn post) := by
  constructor
  · by_cases he : nameOf contact = ""
    · rw [data_nil_of_eq_empty he] at hsp
      have hnil : pySplit ([] : List Char) = [] := rfl
      rw [hnil] at hsp
      cases hsp
    · simp [GmailDraftCreator.process_template, if_neg he, hsp]
  · intro pre post hpre
    exact replaceL_name_through fn pre post hpre

/-- Witness for C2 at the name Jane Q. Public: the first token Jane
replaces both placeholder occurrences. -/
theorem spec_c2_first_token_witness :
    GmailDraftCreator.process_template "Hello %name%, bye %name%." [("name", "Jane Q. Public")] =
      some "Hello Jane, bye Jane." := by
  have h := spec_c2_first_token "Hello %name%, bye %name%." [("name", "Jane Q. Public")]
    "Jane".data ["Q.".data, "Public".data] (by decide)
  exact h.1.trans (by decide)

/-- Counterexample to claim C3 as stated: for a multi-token name the
subject renderer substitutes the full name, not the first token that
body rendering uses. -/
theorem spec_c3_subject_counterexample :
    renderedSubject "Hello %name%" [("name", "Jane Q. Public"), ("email", "j@x.y")] =
        "Hello Jane Q. Public" ∧
      GmailDraftCreator.process_template "Hello %name%"
          [("name", "Jane Q. Public"), ("email", "j@x.y")] =
        some "Hello Jane" ∧
      ("Hello Jane Q. Public" : String) ≠ "Hello Jane" :=
  ⟨by decide, by decide, by decide⟩

/-- Claim C3 (amended): subject rendering substitutes the full
looked-up name: it coincides with main_simple.py's body renderer, not
with main.py's first-token body renderer, whose value on the same
contact is the first token only. -/
theorem spec_c3_subject (subject_template : String) (contact : Contact) :
    renderedSubject subject_template contact =
        SimpleGmailDraftCreator.process_template subject_template contact ∧
      ∀ (fn : List Char) (toks : List (List Char)),
        pySplit (nameOf contact).data = fn :: toks →
        GmailDraftCreator.process_template subject_template contact =
          some (String.mk (replaceL nameTok fn subject_template.data)) := by
  constructor
  · rfl
  · intro fn toks hsp
    by_cases he : nameOf contact = ""
    · rw [data_nil_of_eq_empty he] at hsp
      have hnil : pySplit ([] : List Char) = [] := rfl
      rw [hnil] at hsp
      cases hsp
    · simp [GmailDraftCreator.process_template, if_neg he, hsp]

/-- Witness for C3: the subject and body renderings of the same
contact differ as the amended claim says. -/
theorem spec_c3_subject_witness :
    renderedSubject "Hello %name%" [("name", "Jane Q. Public")] =
        SimpleGmailDraftCreator.process_template "Hello %name%" [("name", "Jane Q. Public")] ∧
      GmailDraftCreator.process_template "Hello %name%" [("name", "Jane Q. Public")] =
        some "Hello Jane" := by
  have h := spec_c3_subject "Hello %name%" [("name", "Jane Q. Public")]
  exact ⟨h.1, (h.2 "Jane".data ["Q.".data, "Public".data] (by decide)).trans (by decide)⟩

/-- Counterexample to claim C5 as stated: a template containing no
placeholder is not rendered to itself by main.py for the single-space
name; the renderer raises before it ever reaches the replacement. -/
theorem spec_c5_identity_counterexample :
    containsSub "hello".data nameTok = false ∧
      GmailDraftCreator.process_template "hello" [("name", " ")] = none :=
  ⟨by decide, by decide⟩

/-- Claim C5 (amended): rendering a template with no %name% occurrence
is the identity: unconditionally in main_simple.py, and in main.py for
every contact whose name is empty or actually splits to a token, i.e.
whenever rendering does not raise. -/
theorem spec_c5_identity (template : String) (contact : Contact)
    (hno : containsSub template.data nameTok = false) :
    SimpleGmailDraftCreator.process_template template contact = template ∧
      (nameOf contact = "" ∨ pySplit (nameOf contact).data ≠ [] →
        GmailDraftCreator.process_template template contact = some template) := by
  have hid : ∀ rep : List Char, replaceL nameTok rep template.data = template.data :=
    fun rep => replaceL_of_not_contains rep hno
  constructor
  · rw [SimpleGmailDraftCreator.process_template, hid]
  · intro hcase
    rcases hcase with he | hne
    · simp [GmailDraftCreator.process_template, he, hid]
    · by_cases he : nameOf contact = ""
      · simp [GmailDraftCreator.process_template, he, hid]
      · cases hsp : pySplit (nameOf contact).data with
        | nil => exact absurd hsp hne
        | cons t ts =>
          simp [GmailDraftCreator.process_template, if_neg he, hsp, hid]

/-- Witness for C5 at a placeholder-free template and a two-token
name. -/
theorem spec_c5_identity_witness :
    SimpleGmailDraftCreator.process_template "hello" [("name", "Jo Ann")] = "hello" ∧
      GmailDraftCreator.process_template "hello" [("name", "Jo Ann")] = some "hello" := by
  have h := spec_c5_identity "hello" [("name", "Jo Ann")] (by decide)
  exact ⟨h.1, h.2 (Or.inr (by decide))⟩

/-- Counterexample to claim C8 as stated: this name has at most one
whitespace-delimited token, yet the two renderers disagree on it
because of its surrounding whitespace. -/
theorem spec_c8_equivalence_counterexample :
    (pySplit (nameOf [("name", " Jane ")]).data).length ≤ 1 ∧
      GmailDraftCreator.process_template "%name%" [("name", " Jane ")] = some "Jane" ∧
      SimpleGmailDraftCreator.process_template "%name%" [("name", " Jane ")] = " Jane " ∧
      ("Jane" : String) ≠ " Jane " :=
  ⟨by decide, by decide, by decide, by decide⟩

/-- Claim C8 (amended): the two body renderers are not equivalent (a
multi-token name separates them), and they agree on every contact whose
name contains no whitespace character at all, the empty and the absent
name included. -/
theorem spec_c8_equivalence (template : String) (contact : Contact)
    (h : ∀ ch ∈ (nameOf contact).data, isPySpace ch = false) :
    GmailDraftCreator.process_template "Dear %name%" [("name", "Jane Q. Public")] ≠
        some (SimpleGmailDraftCreator.process_template "Dear %name%"
          [("name", "Jane Q. Public")]) ∧
      GmailDraftCreator.process_template template contact =
        some (SimpleGmailDraftCreator.process_template template contact) := by
  constructor
  · decide
  · by_cases he : nameOf contact = ""
    · simp [GmailDraftCreator.process_template, SimpleGmailDraftCreator.process_template,
        he, data_nil_of_eq_empty he]
    · have hd : (nameOf contact).data ≠ [] := data_ne_nil he
      have hsp : pySplit (nameOf contact).data = [(nameOf contact).data] :=
        pySplit_no_space hd h
      simp [GmailDraftCreator.process_template, SimpleGmailDraftCreator.process_template,
        if_neg he, hsp]

/-- Witness for C8 at a whitespace-free name. -/
theorem spec_c8_equivalence_witness :
    GmailDraftCreator.process_template "Dear %name%" [("name", "Jane")] =
      some (SimpleGmailDraftCreator.process_template "Dear %name%" [("name", "Jane")]) :=
  (spec_c8_equivalence "Dear %name%" [("name", "Jane")] (by decide)).2

/-- Claim C1: a contact with an empty or absent email is skipped and
never counted, skipping never stops the loop, and a run that completes
reports the number of successful drafts out of the total contact count,
in both variants; the final conjunct is the exact summary sentence of
the claim's 3-contact example.  The hypothesis rules out the unrelated
loop abort on a non-empty all-whitespace name (claim C10). -/
theorem spec_c1_missing_email_skipped (api : DraftApi) (template st : String)
    (contacts : List Contact)
    (h : ∀ c ∈ contacts, emailOf c = "" ∨
      (GmailDraftCreator.process_template template c).isSome = true) :
    (∀ c : Contact, emailOf c = "" →
        GmailDraftCreator.attemptOk api template st c = false ∧
        SimpleGmailDraftCreator.attemptOkSimple api template st c = false) ∧
      (∀ (c : Contact) (rest : List Contact) (acc : Nat), emailOf c = "" →
        GmailDraftCreator.draftLoop api template st (c :: rest) acc =
          GmailDraftCreator.draftLoop api template st rest acc) ∧
      GmailDraftCreator.create_drafts_for_contacts (Except.ok template)
          (Except.ok contacts) api st =
        RunResult.summary (contacts.countP (GmailDraftCreator.attemptOk api template st))
          contacts.length ∧
      SimpleGmailDraftCreator.create_drafts_for_contacts (Except.ok template)
          (Except.ok contacts) api st =
        RunResult.summary
          (contacts.countP (SimpleGmailDraftCreator.attemptOkSimple api template st))
          contacts.length ∧
      summaryLine 2 3 = "Created 2 drafts out of 3 contacts." := by
  refine ⟨?_, ?_, ?_, ?_, by decide⟩
  · intro c he
    constructor
    · rw [GmailDraftCreator.attemptOk]
      simp [he]
    · rw [SimpleGmailDraftCreator.attemptOkSimple]
      simp [he]
  · intro c rest acc he
    exact GmailDraftCreator.draftLoop_skip api template st rest acc he
  · rw [GmailDraftCreator.create_drafts_for_contacts,
      GmailDraftCreator.draftLoop_count api template st contacts 0 h]
    simp
  · rw [SimpleGmailDraftCreator.create_drafts_for_contacts,
      SimpleGmailDraftCreator.draftLoop_count_simple api template st contacts 0]
    simp

/-- Witness for C1: the claim's 3-contact example with an
always-succeeding api gives 2 successes out of 3, reported with the
claimed sentence. -/
theorem spec_c1_missing_email_skipped_witness :
    GmailDraftCreator.create_drafts_for_contacts (Except.ok "T")
        (Except.ok [[("name", "A"), ("email", "a@x.y")], [("name", "B")],
          [("name", "C"), ("email", "c@x.y")]])
        (fun _ _ _ => Except.ok "draft") "S" =
      RunResult.summary 2 3 ∧
      summaryLine 2 3 = "Created 2 drafts out of 3 contacts." := by
  have h := spec_c1_missing_email_skipped (fun _ _ _ => Except.ok "draft") "T" "S"
    [[("name", "A"), ("email", "a@x.y")], [("name", "B")], [("name", "C"), ("email", "c@x.y")]]
    (by decide)
  exact ⟨h.2.2.1.trans (by decide), h.2.2.2.2⟩

/-- Claim C9: an HTTP error raised by the remote draft-create call is
caught inside create_draft, which returns false for that contact; the
loop then moves on to the remaining contacts with an unchanged success
count and no abort. -/
theorem spec_c9_http_error_caught (api : DraftApi)
    (template st to_email subject body : String) (contact : Contact)
    (rest : List Contact) (acc : Nat) (err rendered : String)
    (hfail : api to_email subject (GmailDraftCreator.convert_to_html body) =
      Except.error err)
    (he : emailOf contact ≠ "")
    (hb : GmailDraftCreator.process_template template contact = some rendered)
    (hcd : GmailDraftCreator.create_draft api (emailOf contact)
      (renderedSubject st contact) rendered = false) :
    GmailDraftCreator.create_draft api to_email subject body = false ∧
      GmailDraftCreator.draftLoop api template st (contact :: rest) acc =
        GmailDraftCreator.draftLoop api template st rest acc := by
  constructor
  · rw [GmailDraftCreator.create_draft, hfail]
  · rw [GmailDraftCreator.draftLoop_step api template st rest acc he hb,
      if_neg (by simp [hcd])]

/-- Witness for C9 with an api that always raises an HTTP error. -/
theorem spec_c9_http_error_caught_witness :
    GmailDraftCreator.create_draft (fun _ _ _ => Except.error "HttpError 500")
        "a@x.y" "S" "T" = false ∧
      GmailDraftCreator.draftLoop (fun _ _ _ => Except.error "HttpError 500") "T" "S"
          [[("name", "A"), ("email", "a@x.y")]] 0 =
        GmailDraftCreator.draftLoop (fun _ _ _ => Except.error "HttpError 500") "T" "S"
          [] 0 :=
  spec_c9_http_error_caught (fun _ _ _ => Except.error "HttpError 500") "T" "S"
    "a@x.y" "S" "T" [("name", "A"), ("email", "a@x.y")] [] 0 "HttpError 500" "T"
    rfl (by decide) (by decide) (by decide)

/-- Counterexample to claim C4 as stated: with successful
authentication but a missing template file, main.py's main returns 0;
the FileNotFoundError is caught inside create_drafts_for_contacts and
only printed, so the run does not exit non-zero. -/
theorem spec_c4_exit_code_counterexample :
    GmailDraftCreator.mainExit (Except.ok ())
        (Except.error "Template file email_template.txt not found")
        (Except.ok []) (fun _ _ _ => Except.ok "draft") "S" = 0 := rfl

/-- Claim C4 (amended): both entry points exit 0 whenever
authentication/login succeeds, including runs with per-contact
failures and runs whose template or contacts file is missing (those
errors are caught inside create_drafts_for_contacts and only printed),
and exit 1 when authentication fails or, in the simple variant, when
the placeholder credentials are still in place. -/
theorem spec_c4_exit_code (templateLoad : Except String String)
    (contactsLoad : Except String (List Contact)) (api : DraftApi) (st e : String)
    (login : Except String Unit) :
    GmailDraftCreator.mainExit (Except.ok ()) templateLoad contactsLoad api st = 0 ∧
      GmailDraftCreator.mainExit (Except.error e) templateLoad contactsLoad api st = 1 ∧
      SimpleGmailDraftCreator.mainExit false (Except.ok ()) templateLoad contactsLoad
        api st = 0 ∧
      SimpleGmailDraftCreator.mainExit false (Except.error e) templateLoad contactsLoad
        api st = 1 ∧
      SimpleGmailDraftCreator.mainExit true login templateLoad contactsLoad api st = 1 :=
  ⟨rfl, rfl, rfl, rfl, rfl⟩

/-- Claim C6: convert_to_html maps the example sentence to the wrapped
document whose body is exactly the input with the URL turned into an
anchor whose visible text is the URL and with the surrounding words
kept verbatim; in general every newline is expanded to a br tag
followed by the newline, and every maximal run `https?://chars` (chars
neither whitespace nor angle bracket nor double quote, at least one)
is wrapped into an anchor while the preceding text is kept. -/
theorem spec_c6_convert_to_html :
    GmailDraftCreator.convert_to_html "Visit http://example.com now" =
        "\n        <html>\n        <body>\n        " ++ "Visit " ++
          "<a href=\"http://example.com\">http://example.com</a>" ++ " now" ++
          "\n        </body>\n        </html>\n        " ∧
      (∀ l : List Char, replaceL ['\n'] ('<' :: 'b' :: 'r' :: '>' :: '\n' :: []) l =
        l.flatMap (fun c =>
          if c == '\n' then '<' :: 'b' :: 'r' :: '>' :: '\n' :: [] else [c])) ∧
      (∀ (pre scheme body rest : List Char), (∀ ch ∈ pre, ch ≠ 'h') →
        (scheme = GmailDraftCreator.schemeHttp ∨ scheme = GmailDraftCreator.schemeHttps) →
        body ≠ [] → body.all GmailDraftCreator.urlChar = true →
        firstNot GmailDraftCreator.urlChar rest = true →
        GmailDraftCreator.autolink (pre ++ (scheme ++ (body ++ rest))) =
          pre ++ (GmailDraftCreator.anchorOf (scheme ++ body) ++
            GmailDraftCreator.autolink rest)) := by
  refine ⟨by decide, replaceL_single_char '\n' _, ?_⟩
  intro pre scheme body rest h1 h2 h3 h4 h5
  exact GmailDraftCreator.autolink_through pre h1 h2 h3 h4 h5

/-- Witness for C6: the URL-wrapping conjunct applied to the example
sentence split at its URL. -/
theorem spec_c6_convert_to_html_witness :
    GmailDraftCreator.autolink ("Visit ".data ++ (GmailDraftCreator.schemeHttp ++
        ("example.com".data ++ " now".data))) =
      "Visit ".data ++ (GmailDraftCreator.anchorOf (GmailDraftCreator.schemeHttp ++
        "example.com".data) ++ GmailDraftCreator.autolink " now".data) :=
  (spec_c6_convert_to_html).2.2 "Visit ".data GmailDraftCreator.schemeHttp
    "example.com".data " now".data (by decide) (Or.inl rfl) (by decide) (by decide)
    (by decide)

end GmailDrafter
